import Mathlib

/-
Shallow embedding of src/main.ts of the img-plugin-obsidian repository:
an editor plugin that intercepts paste/drop events, uploads the attached
files to Gitee via its REST API, and inserts Markdown links for them.
Pure data and control flow are translated directly from the TypeScript;
the asynchronous parts (FileReader, axios, Promise.all) are modelled by
explicit outcome values and an explicit completion schedule.
-/

namespace ImgPlugin

/-- Embeds `interface MyPluginSettings` (src/main.ts lines 6-12). -/
structure MyPluginSettings where
  repo : String
  branch : String
  path : String
  token : String
  subPathable : Bool
deriving DecidableEq, Repr

/-- Embeds `DEFAULT_SETTINGS` (src/main.ts lines 14-20). -/
def DEFAULT_SETTINGS : MyPluginSettings :=
  ⟨"", "master", "/", "", true⟩

/-- The data persisted by `saveData` / returned by `loadData`: a plain object
whose fields may each be absent. `loadData()` itself may return `undefined`
(first run), modelled by wrapping this in `Option` at the call site. -/
structure PersistedData where
  repo : Option String
  branch : Option String
  path : Option String
  token : Option String
  subPathable : Option Bool
deriving DecidableEq, Repr

/-- Embeds `loadSettings` (src/main.ts lines 63-65):
`this.settings = Object.assign(\x7b\x7d, DEFAULT_SETTINGS, await this.loadData())`.
`Object.assign` is a shallow merge: a field present in the loaded data wins,
an absent field keeps the default, and an `undefined` result contributes
nothing. -/
def loadSettings (data : Option PersistedData) : MyPluginSettings :=
  match data with
  | none => DEFAULT_SETTINGS
  | some d =>
      ⟨d.repo.getD DEFAULT_SETTINGS.repo,
       d.branch.getD DEFAULT_SETTINGS.branch,
       d.path.getD DEFAULT_SETTINGS.path,
       d.token.getD DEFAULT_SETTINGS.token,
       d.subPathable.getD DEFAULT_SETTINGS.subPathable⟩

/-- Embeds `saveSettings` (src/main.ts lines 67-69): `saveData(this.settings)`
persists the full settings object, so every field is present afterwards. -/
def saveSettings (s : MyPluginSettings) : PersistedData :=
  ⟨some s.repo, some s.branch, some s.path, some s.token, some s.subPathable⟩

/-- A member of the DOM `FileList`: name, byte size and MIME type string.
The raw bytes are not modelled; the reader's data-URL result is carried by
the per-file outcome instead. -/
structure FileRef where
  name : String
  size : Nat
  type : String
deriving DecidableEq, Repr

/-- An `new Notice(message, duration)` call (obsidian API). -/
structure Notice where
  message : String
  duration : Nat
deriving DecidableEq, Repr

/-- `Array.prototype.join(sep)` on a list of strings. -/
def joinSep (sep : String) : List String → String
  | [] => ""
  | [x] => x
  | x :: y :: rest => x ++ sep ++ joinSep sep (y :: rest)

/-- Whether `pat` is an initial segment of `s`, on character lists. -/
def startsWithChars : List Char → List Char → Bool
  | _, [] => true
  | [], _ :: _ => false
  | c :: cs, p :: ps => c == p && startsWithChars cs ps

/-- Whether `pat` occurs contiguously anywhere in `s`, on character lists. -/
def containsChars : List Char → List Char → Bool
  | s, pat =>
    match s with
    | [] => pat.isEmpty
    | _ :: rest => startsWithChars s pat || containsChars rest pat

/-- Removes the first (leftmost) occurrence of `pat` from `s`, on character
lists; `s` unchanged when `pat` does not occur. -/
def replaceFirstChars : List Char → List Char → List Char
  | [], _ => []
  | c :: rest, pat =>
      if startsWithChars (c :: rest) pat then List.drop pat.length (c :: rest)
      else c :: replaceFirstChars rest pat

/-- JS `String.prototype.includes(pat)`: substring containment, true for the
empty pattern. -/
def jsIncludes (s pat : String) : Bool :=
  containsChars s.data pat.data

/-- JS `String.prototype.startsWith(pat)`. Not used by the source (which
uses `includes`); needed to state what the spec asserts about MIME types. -/
def jsStartsWith (s pat : String) : Bool :=
  startsWithChars s.data pat.data

/-- JS `String.prototype.replace(pat, '')` with a string pattern: removes the
FIRST occurrence of `pat` only (unlike Lean's `String.replace`, which removes
all of them). -/
def replaceFirst (s pat : String) : String :=
  String.mk (replaceFirstChars s.data pat.data)

/-- Embeds `const tooLargeFiles = Array.from(fileList).filter(file =>
file.size > 1024 * 1024 * 10)` (src/main.ts line 73). -/
def tooLargeFiles (fileList : List FileRef) : List FileRef :=
  fileList.filter (fun file => decide (file.size > 1024 * 1024 * 10))

/-- Embeds the second filter of src/main.ts line 77: the files that are
actually mapped into per-file upload promises,
`Array.from(fileList).filter(file => file.size <= 1024 * 1024 * 10)`. -/
def acceptedFiles (fileList : List FileRef) : List FileRef :=
  fileList.filter (fun file => decide (file.size ≤ 1024 * 1024 * 10))

/-- Embeds src/main.ts lines 74-76: `if (tooLargeFiles.length) new
Notice(..., 5000)` — a single notice per batch, whose message joins the
rejected names with `、`. Returns the list of notices emitted by this step
(empty or a singleton). -/
def oversizedNotices (fileList : List FileRef) : List Notice :=
  if (tooLargeFiles fileList).length != 0 then
    [⟨"文件大小不能超过10MB，" ++ joinSep "、" ((tooLargeFiles fileList).map FileRef.name)
        ++ "将会被丢弃", 5000⟩]
  else []

/-- The data-URL head produced by `FileReader.readAsDataURL`, as interpolated
at src/main.ts line 83. -/
def dataUrlHead (file : FileRef) : String :=
  "data:" ++ file.type ++ ";base64,"

/-- The JSON body of the axios POST (src/main.ts lines 82-84). -/
structure UploadBody where
  access_token : String
  content : String
  message : String
deriving DecidableEq, Repr

/-- One axios POST request: its URL and JSON body. -/
structure UploadRequest where
  url : String
  body : UploadBody
deriving DecidableEq, Repr

/-- Embeds the URL template of src/main.ts line 81: the separators around the
sub-path are written into the template, so they are present even when
`filePath` is the empty string. -/
def uploadUrl (settings : MyPluginSettings) (filePath : String) (file : FileRef) : String :=
  "https://gitee.com/api/v5/repos/" ++ settings.repo ++ "/contents/"
    ++ settings.path ++ "/" ++ filePath ++ "/" ++ file.name

/-- The axios POST issued at src/main.ts lines 81-85, given the reader's
data-URL result: the body strips the data-URL head from the reader result
(first occurrence, JS `replace`) and uses the fixed commit message. -/
def buildRequest (settings : MyPluginSettings) (filePath : String) (file : FileRef)
    (readerResult : String) : UploadRequest :=
  ⟨uploadUrl settings filePath file,
   ⟨settings.token, replaceFirst readerResult (dataUrlHead file), "upload image"⟩⟩

/-- `err.response.data` of an axios error. -/
structure ErrData where
  message : String
deriving DecidableEq, Repr

/-- `err.response` of an axios error, when present. -/
structure ErrResponse where
  data : ErrData
deriving DecidableEq, Repr

/-- An axios rejection value: `response` is present for a non-success API
response and absent for a network error that got no response. -/
structure AxiosError where
  response : Option ErrResponse
deriving DecidableEq, Repr

/-- The environment's outcome for one per-file pipeline: the local read
errors, or the read produces a data-URL string and the POST resolves with a
`download_url`, or the POST rejects with an axios error. -/
inductive FileOutcome where
  | readError
  | postSuccess (readerResult : String) (download_url : String)
  | postFailure (readerResult : String) (err : AxiosError)
deriving DecidableEq, Repr

/-- Embeds src/main.ts line 87: `file.type.includes('image') ?
`![name](url)` : url`. -/
def formatResult (file : FileRef) (downloadUrl : String) : String :=
  if jsIncludes file.type "image" then
    "![" ++ file.name ++ "](" ++ downloadUrl ++ ")"
  else downloadUrl

/-- What one per-file promise (src/main.ts lines 78-99) does, given its
outcome: the requests it issues, the notices it shows, and the value its
promise resolves with — `none` when the promise never settles. -/
structure PerFileRun where
  requests : List UploadRequest
  notices : List Notice
  slot : Option String
deriving DecidableEq, Repr

/-- Embeds one per-file promise (src/main.ts lines 78-99).
On read error (`reader.onerror`, lines 94-97): a notice naming the file,
then `resolve('')`; no request is issued and `reject` is never called.
On read success the POST of lines 81-85 is issued; on a fulfilled response
(lines 86-88) the promise resolves with `formatResult`.
On a rejected response (lines 89-92) the handler evaluates
`err.response.data.message`: when `err.response` is present it shows the
failure notice and resolves with `''`; when `err.response` is absent
(network error with no response) that member access throws a TypeError
inside the `.catch` callback, so no notice is shown and neither `resolve`
nor `reject` of the outer promise is ever called — the slot never settles,
modelled as `none`. -/
def processFile (settings : MyPluginSettings) (filePath : String) (file : FileRef)
    (outcome : FileOutcome) : PerFileRun :=
  match outcome with
  | FileOutcome.readError =>
      ⟨[], [⟨"文件读取" ++ file.name ++ "失败", 5000⟩], some ""⟩
  | FileOutcome.postSuccess readerResult downloadUrl =>
      ⟨[buildRequest settings filePath file readerResult], [],
       some (formatResult file downloadUrl)⟩
  | FileOutcome.postFailure readerResult err =>
      match err.response with
      | some r =>
          ⟨[buildRequest settings filePath file readerResult],
           [⟨"上传文件" ++ file.name ++ "失败，失败原因：" ++ r.data.message, 5000⟩],
           some ""⟩
      | none =>
          ⟨[buildRequest settings filePath file readerResult], [], none⟩

/-- True when the per-file handler of src/main.ts lines 89-92 throws instead
of settling: an axios rejection whose `response` is absent. -/
def crashes (outcome : FileOutcome) : Bool :=
  match outcome with
  | FileOutcome.postFailure _ err => err.response.isNone
  | _ => false

/-- Everything observable about one `uploadToGitee` call: the requests
issued, the notices shown, and the per-file promise slots handed to
`Promise.all`, in the (positional) order of the accepted files. -/
structure BatchRun where
  requests : List UploadRequest
  notices : List Notice
  slots : List (Option String)
deriving DecidableEq, Repr

/-- The per-file promises created at src/main.ts line 77: one `processFile`
per accepted file, in file-list order; `outcomes i` is the environment's
outcome for the i-th accepted file. -/
def perFileRuns (fileList : List FileRef) (settings : MyPluginSettings)
    (filePath : String) (outcomes : Nat → FileOutcome) : List PerFileRun :=
  (acceptedFiles fileList).enum.map
    (fun p => processFile settings filePath p.2 (outcomes p.1))

/-- Embeds `uploadToGitee(fileList, settings, filePath)` (src/main.ts lines
72-101). The oversized notice of lines 73-76 comes first; then each accepted
file gets one per-file promise, and `Promise.all` receives their slots in
list order. -/
def uploadToGitee (fileList : List FileRef) (settings : MyPluginSettings)
    (filePath : String) (outcomes : Nat → FileOutcome) : BatchRun :=
  ⟨((perFileRuns fileList settings filePath outcomes).map PerFileRun.requests).flatten,
   oversizedNotices fileList ++
     ((perFileRuns fileList settings filePath outcomes).map PerFileRun.notices).flatten,
   (perFileRuns fileList settings filePath outcomes).map PerFileRun.slot⟩

/-- The non-prompting call site (src/main.ts line 53):
`uploadToGitee(files, this.settings)` relies on the default parameter
`filePath = ''`. -/
def directUploadCall (fileList : List FileRef) (settings : MyPluginSettings)
    (outcomes : Nat → FileOutcome) : BatchRun :=
  uploadToGitee fileList settings "" outcomes

/-- Embeds `res.filter(x => x).join('\n')` (src/main.ts line 54 and line
141): empty strings are falsy, every other string truthy. -/
def insertedText (res : List String) : String :=
  joinSep "\n" (res.filter (fun x => x != ""))

/-- The runtime behaviour of `Promise.all`'s aggregation, modelled from the
spec: the aggregate keeps an array with one cell per slot; each completion
event `(i, v)` (promise `i` settled with value `v`) stores `v` at index `i`,
in whatever order completions happen. -/
def settleInOrder (n : Nat) (events : List (Nat × String)) : List (Option String) :=
  events.foldl (fun acc e => acc.set e.1 (some e.2)) (List.replicate n none)

/-- What the `uploadFiles` handler (src/main.ts lines 43-57) decides to do. -/
inductive UploadAction where
  | noAction
  | openModal
  | directUpload
deriving DecidableEq, Repr

/-- The observable effect of one `uploadFiles` call on the event and the
dispatch decision. -/
structure EventEffects where
  defaultPrevented : Bool
  propagationStopped : Bool
  action : UploadAction
deriving DecidableEq, Repr

/-- Embeds `uploadFiles` (src/main.ts lines 43-57). `files` is the event's
file list, absent when the clipboard/dataTransfer is missing. The guard
`if (!files?.length) return` leaves the event untouched; otherwise
`preventDefault()` and `stopPropagation()` run unconditionally, and the
dispatch reads `this.settings.subPathable` at that moment (the settings are
passed in fresh on every event, never cached). -/
def uploadFiles (files : Option (List FileRef)) (settings : MyPluginSettings) : EventEffects :=
  match files with
  | none => ⟨false, false, UploadAction.noAction⟩
  | some fs =>
      if fs.length = 0 then ⟨false, false, UploadAction.noAction⟩
      else if settings.subPathable then ⟨true, true, UploadAction.openModal⟩
      else ⟨true, true, UploadAction.directUpload⟩

/-
Helper lemmas shared by several claim theorems.
-/

theorem string_append_empty (s : String) : s ++ "" = s := by
  cases s with
  | mk data => exact congrArg String.mk (List.append_nil data)

theorem string_empty_append (s : String) : "" ++ s = s := by
  cases s with
  | mk data => rfl

/-- Every member of a joined list occurs contiguously in the joined string. -/
theorem joinSep_infix (sep : String) :
    ∀ (l : List String) (s : String), s ∈ l → ∃ a b, joinSep sep l = a ++ s ++ b := by
  intro l
  induction l with
  | nil => intro s hs; cases hs
  | cons x xs ih =>
      intro s hs
      cases xs with
      | nil =>
          rcases List.mem_cons.mp hs with h | h
          · subst h
            refine ⟨"", "", ?_⟩
            rw [string_empty_append, string_append_empty]
            rfl
          · cases h
      | cons y ys =>
          rcases List.mem_cons.mp hs with h | h
          · subst h
            refine ⟨"", sep ++ joinSep sep (y :: ys), ?_⟩
            rw [string_empty_append, ← String.append_assoc]
            rfl
          · rcases ih s h with ⟨a, b, hab⟩
            refine ⟨x ++ sep ++ a, b, ?_⟩
            show x ++ sep ++ joinSep sep (y :: ys) = x ++ sep ++ a ++ s ++ b
            rw [hab]
            simp [String.append_assoc]

theorem processFile_requests_eq (settings : MyPluginSettings) (filePath : String)
    (file : FileRef) (o : FileOutcome) :
    (processFile settings filePath file o).requests =
      match o with
      | FileOutcome.readError => []
      | FileOutcome.postSuccess rr _ => [buildRequest settings filePath file rr]
      | FileOutcome.postFailure rr _ => [buildRequest settings filePath file rr] := by
  cases o with
  | readError => rfl
  | postSuccess rr u => rfl
  | postFailure rr err => rcases err with ⟨_ | _⟩ <;> rfl

theorem processFile_slot_isSome (settings : MyPluginSettings) (filePath : String)
    (file : FileRef) (o : FileOutcome) :
    (processFile settings filePath file o).slot.isSome = !(crashes o) := by
  cases o with
  | readError => rfl
  | postSuccess rr u => rfl
  | postFailure rr err => rcases err with ⟨_ | _⟩ <;> rfl

theorem processFile_branch_irrelevant (r b₁ b₂ p t : String) (sp₁ sp₂ : Bool)
    (filePath : String) (file : FileRef) (o : FileOutcome) :
    processFile ⟨r, b₁, p, t, sp₁⟩ filePath file o
      = processFile ⟨r, b₂, p, t, sp₂⟩ filePath file o := by
  cases o with
  | readError => rfl
  | postSuccess rr u => rfl
  | postFailure rr err => rcases err with ⟨_ | _⟩ <;> rfl

theorem processFile_requests_length (settings : MyPluginSettings) (filePath : String)
    (file : FileRef) (o : FileOutcome) :
    (processFile settings filePath file o).requests.length
      = if o = FileOutcome.readError then 0 else 1 := by
  cases o <;> simp [processFile_requests_eq]

theorem requests_length_aux (settings : MyPluginSettings) (filePath : String)
    (outcomes : Nat → FileOutcome) :
    ∀ (l : List (Nat × FileRef)),
      ((l.map (fun p => (processFile settings filePath p.2 (outcomes p.1)).requests)).flatten).length
        = (l.filter (fun p => !(outcomes p.1 == FileOutcome.readError))).length := by
  intro l
  induction l with
  | nil => rfl
  | cons p rest ih =>
      rw [List.map_cons, List.flatten_cons, List.length_append, ih, List.filter_cons]
      by_cases h : outcomes p.1 = FileOutcome.readError
      · simp [h, processFile_requests_length]
      · simp [h, processFile_requests_length, Nat.add_comm]

theorem foldl_set_length (events : List (Nat × String)) (acc : List (Option String)) :
    (events.foldl (fun a e => a.set e.1 (some e.2)) acc).length = acc.length := by
  induction events generalizing acc with
  | nil => rfl
  | cons e rest ih => rw [List.foldl_cons, ih, List.length_set]

theorem foldl_set_not_mem :
    ∀ (events : List (Nat × String)) (acc : List (Option String)) (j : Nat),
      j ∉ events.map Prod.fst →
      (events.foldl (fun a e => a.set e.1 (some e.2)) acc)[j]? = acc[j]? := by
  intro events
  induction events with
  | nil => intro acc j _; rfl
  | cons e rest ih =>
      intro acc j hj
      rw [List.map_cons, List.mem_cons] at hj
      push_neg at hj
      rw [List.foldl_cons, ih _ j hj.2, List.getElem?_set_ne (Ne.symm hj.1)]

theorem foldl_set_mem :
    ∀ (events : List (Nat × String)) (acc : List (Option String)) (j : Nat) (v : String),
      (events.map Prod.fst).Nodup → (j, v) ∈ events → j < acc.length →
      (events.foldl (fun a e => a.set e.1 (some e.2)) acc)[j]? = some (some v) := by
  intro events
  induction events with
  | nil => intro acc j v _ hmem _; cases hmem
  | cons e rest ih =>
      intro acc j v hnd hmem hj
      rw [List.map_cons, List.nodup_cons] at hnd
      rw [List.foldl_cons]
      rcases List.mem_cons.mp hmem with he | he
      · have hjn : j ∉ rest.map Prod.fst := by
          have h1 := hnd.1
          rw [← he] at h1
          exact h1
        rw [foldl_set_not_mem rest _ j hjn, ← he]
        exact List.getElem?_set_self hj
      · have hj1 : e.1 ≠ j := by
          intro hq
          exact hnd.1 (hq ▸ List.mem_map_of_mem Prod.fst he)
        exact ih _ j v hnd.2 he (by rw [List.length_set]; exact hj)

/-- Replaying any permutation of the completion events of settled values
fills the aggregate array with exactly those values, positionally. -/
theorem settleInOrder_perm (vals : List String) (events : List (Nat × String))
    (hperm : events.Perm vals.enum) :
    settleInOrder vals.length events = vals.map some := by
  have hnd : (events.map Prod.fst).Nodup := by
    have hp : (events.map Prod.fst).Perm (vals.enum.map Prod.fst) := hperm.map Prod.fst
    rw [hp.nodup_iff, List.enum_map_fst]
    exact List.nodup_range _
  apply List.ext_getElem?
  intro j
  by_cases hj : j < vals.length
  · have hmem : (j, vals.get ⟨j, hj⟩) ∈ events := by
      apply hperm.mem_iff.mpr
      apply List.mem_enum_iff_getElem?.mpr
      exact List.getElem?_eq_getElem hj
    have hL : (settleInOrder vals.length events)[j]? = some (some (vals.get ⟨j, hj⟩)) := by
      rw [settleInOrder]
      exact foldl_set_mem events (List.replicate vals.length none) j _ hnd hmem
        (by rw [List.length_replicate]; exact hj)
    have hR : (vals.map some)[j]? = some (some (vals.get ⟨j, hj⟩)) := by
      rw [List.getElem?_map, List.getElem?_eq_getElem hj]
      rfl
    rw [hL, hR]
  · push_neg at hj
    have hL : (settleInOrder vals.length events)[j]? = none := by
      apply List.getElem?_eq_none
      rw [settleInOrder, foldl_set_length, List.length_replicate]
      exact hj
    have hR : (vals.map some)[j]? = none := by
      apply List.getElem?_eq_none
      rw [List.length_map]
      exact hj
    rw [hL, hR]

/-
Claim theorems.
-/

/-- C1 (code_bug evidence): the claim says every failed upload — including a
network error with no response — shows a notice with the file name and the
server message and resolves the slot to the empty string, so the batch
promise still settles. The code reads `err.response.data.message` without
guarding `err.response`; when the rejection carries no response that member
access throws inside the `.catch` callback, so NO notice is shown, the
per-file promise never settles, and `Promise.all` never settles. This
theorem evaluates the embedded handler at that failing input. -/
theorem upload_failure_without_response_never_settles :
    (processFile DEFAULT_SETTINGS "" ⟨"a.png", 5, "image/png"⟩
        (FileOutcome.postFailure "data:image/png;base64,AAAA" ⟨none⟩)).notices = [] ∧
    (processFile DEFAULT_SETTINGS "" ⟨"a.png", 5, "image/png"⟩
        (FileOutcome.postFailure "data:image/png;base64,AAAA" ⟨none⟩)).slot = none ∧
    ((uploadToGitee [⟨"a.png", 5, "image/png"⟩] DEFAULT_SETTINGS ""
        (fun _ => FileOutcome.postFailure "data:image/png;base64,AAAA" ⟨none⟩)).slots.all
          Option.isSome) = false :=
  ⟨rfl, rfl, rfl⟩

/-- C2: a local read failure is fail-soft: `reject` is never called, the
per-file promise resolves to the empty-string sentinel, the notice shown
names the file, and a batch none of whose outcomes crashes the handler (in
particular one containing read failures) has every slot settled, so the
`Promise.all` batch completes. -/
theorem read_failure_fail_soft (settings : MyPluginSettings) (filePath : String)
    (file : FileRef) (fileList : List FileRef) (outcomes : Nat → FileOutcome)
    (hok : ∀ i, crashes (outcomes i) = false) :
    (processFile settings filePath file FileOutcome.readError).slot = some "" ∧
    (∃ a b, (processFile settings filePath file FileOutcome.readError).notices =
        [⟨a ++ file.name ++ b, 5000⟩]) ∧
    (uploadToGitee fileList settings filePath outcomes).slots.all Option.isSome = true := by
  refine ⟨rfl, ⟨"文件读取", "失败", rfl⟩, ?_⟩
  rw [List.all_eq_true]
  intro x hx
  simp only [uploadToGitee, perFileRuns, List.map_map, List.mem_map] at hx
  rcases hx with ⟨p, _, hp⟩
  rw [← hp]
  simp only [Function.comp_apply, processFile_slot_isSome, hok p.1, Bool.not_false]

theorem read_failure_fail_soft_witness :
    (processFile DEFAULT_SETTINGS "" ⟨"b.txt", 3, "text/plain"⟩ FileOutcome.readError).slot
        = some "" ∧
    (∃ a b, (processFile DEFAULT_SETTINGS "" ⟨"b.txt", 3, "text/plain"⟩
        FileOutcome.readError).notices = [⟨a ++ FileRef.name ⟨"b.txt", 3, "text/plain"⟩ ++ b, 5000⟩]) ∧
    (uploadToGitee [⟨"b.txt", 3, "text/plain"⟩] DEFAULT_SETTINGS ""
        (fun _ => FileOutcome.readError)).slots.all Option.isSome = true :=
  read_failure_fail_soft DEFAULT_SETTINGS "" ⟨"b.txt", 3, "text/plain"⟩
    [⟨"b.txt", 3, "text/plain"⟩] (fun _ => FileOutcome.readError) (fun _ => rfl)

/-- C4 (counterexample): the claim dispatches on the MIME type STARTING with
`image/`; the code dispatches on `file.type.includes('image')`. A MIME type
such as `application/x-disk-image` contains `image` without starting with
`image/`, and its successful upload yields the Markdown image form, not the
bare URL the claim requires. -/
theorem image_markdown_on_substring_cex :
    jsStartsWith "application/x-disk-image" "image/" = false ∧
    (processFile DEFAULT_SETTINGS "" ⟨"a.bin", 5, "application/x-disk-image"⟩
        (FileOutcome.postSuccess "data:application/x-disk-image;base64,AA"
          "https://x/a.bin")).slot = some "![a.bin](https://x/a.bin)" ∧
    ("![a.bin](https://x/a.bin)" : String) ≠ "https://x/a.bin" := by
  exact ⟨by decide, rfl, by decide⟩

/-- C4 (amended): for every successful upload, the result is exactly
`![name](download_url)` when the file's MIME type CONTAINS the substring
`image` (JS `String.prototype.includes`), and exactly the bare
`download_url` otherwise. -/
theorem image_markdown_on_substring (settings : MyPluginSettings) (filePath : String)
    (file : FileRef) (readerResult downloadUrl : String) :
    (jsIncludes file.type "image" = true →
      (processFile settings filePath file
          (FileOutcome.postSuccess readerResult downloadUrl)).slot
        = some ("![" ++ file.name ++ "](" ++ downloadUrl ++ ")")) ∧
    (jsIncludes file.type "image" = false →
      (processFile settings filePath file
          (FileOutcome.postSuccess readerResult downloadUrl)).slot
        = some downloadUrl) := by
  constructor <;> intro h <;> simp [processFile, formatResult, h]

theorem image_markdown_on_substring_witness :
    (processFile DEFAULT_SETTINGS "" ⟨"a.png", 5, "image/png"⟩
        (FileOutcome.postSuccess "rr" "https://x/a.png")).slot
      = some "![a.png](https://x/a.png)" ∧
    (processFile DEFAULT_SETTINGS "" ⟨"c.txt", 5, "text/plain"⟩
        (FileOutcome.postSuccess "rr" "https://x/c.txt")).slot
      = some "https://x/c.txt" :=
  ⟨(image_markdown_on_substring DEFAULT_SETTINGS "" ⟨"a.png", 5, "image/png"⟩
      "rr" "https://x/a.png").1 (by decide),
   (image_markdown_on_substring DEFAULT_SETTINGS "" ⟨"c.txt", 5, "text/plain"⟩
      "rr" "https://x/c.txt").2 (by decide)⟩

/-- C5: a file gets a per-file upload pipeline exactly when its size is at
most 10 MiB = 10 × 1024 × 1024 bytes; strictly larger files land in the
rejected list instead, and the batch has exactly one slot per accepted
file. -/
theorem size_filter_iff (fileList : List FileRef) (file : FileRef)
    (settings : MyPluginSettings) (filePath : String) (outcomes : Nat → FileOutcome) :
    (file ∈ acceptedFiles fileList ↔ file ∈ fileList ∧ file.size ≤ 10 * 1024 * 1024) ∧
    (file ∈ tooLargeFiles fileList ↔ file ∈ fileList ∧ 10 * 1024 * 1024 < file.size) ∧
    (uploadToGitee fileList settings filePath outcomes).slots.length
      = (acceptedFiles fileList).length := by
  refine ⟨?_, ?_, ?_⟩
  · rw [acceptedFiles, List.mem_filter]
    exact and_congr_right fun _ => by simp only [decide_eq_true_eq]
  · rw [tooLargeFiles, List.mem_filter]
    exact and_congr_right fun _ => by simp only [decide_eq_true_eq]
  · simp [uploadToGitee, perFileRuns, List.length_map, List.enum_length]

/-- C8: with no files (absent list or empty list) the event is left alone;
with files present the default action and propagation are suppressed and
dispatch follows the `subPathable` flag of the settings passed in at event
time. -/
theorem event_dispatch (settings : MyPluginSettings) (files : List FileRef)
    (hne : files ≠ []) :
    uploadFiles none settings = ⟨false, false, UploadAction.noAction⟩ ∧
    uploadFiles (some []) settings = ⟨false, false, UploadAction.noAction⟩ ∧
    uploadFiles (some files) settings =
      ⟨true, true, if settings.subPathable then UploadAction.openModal
                   else UploadAction.directUpload⟩ := by
  refine ⟨rfl, rfl, ?_⟩
  cases files with
  | nil => exact absurd rfl hne
  | cons f fs => cases hb : settings.subPathable <;> simp [uploadFiles, hb]

theorem event_dispatch_witness :
    uploadFiles none DEFAULT_SETTINGS = ⟨false, false, UploadAction.noAction⟩ ∧
    uploadFiles (some []) DEFAULT_SETTINGS = ⟨false, false, UploadAction.noAction⟩ ∧
    uploadFiles (some [⟨"a.png", 5, "image/png"⟩]) DEFAULT_SETTINGS =
      ⟨true, true, if DEFAULT_SETTINGS.subPathable then UploadAction.openModal
                   else UploadAction.directUpload⟩ :=
  event_dispatch DEFAULT_SETTINGS [⟨"a.png", 5, "image/png"⟩] (List.cons_ne_nil _ _)

/-- C9: saving a configuration and reloading the persisted data yields the
identical configuration; loading with no persisted data yields the
defaults; and each field missing from the persisted data is filled from
the defaults while each present field wins (shallow merge). -/
theorem settings_round_trip (s : MyPluginSettings) (d : PersistedData) :
    loadSettings (some (saveSettings s)) = s ∧
    loadSettings none = DEFAULT_SETTINGS ∧
    ((d.repo = none → (loadSettings (some d)).repo = DEFAULT_SETTINGS.repo) ∧
     (d.branch = none → (loadSettings (some d)).branch = DEFAULT_SETTINGS.branch) ∧
     (d.path = none → (loadSettings (some d)).path = DEFAULT_SETTINGS.path) ∧
     (d.token = none → (loadSettings (some d)).token = DEFAULT_SETTINGS.token) ∧
     (d.subPathable = none →
        (loadSettings (some d)).subPathable = DEFAULT_SETTINGS.subPathable)) ∧
    ((∀ v, d.repo = some v → (loadSettings (some d)).repo = v) ∧
     (∀ v, d.branch = some v → (loadSettings (some d)).branch = v) ∧
     (∀ v, d.path = some v → (loadSettings (some d)).path = v) ∧
     (∀ v, d.token = some v → (loadSettings (some d)).token = v) ∧
     (∀ v, d.subPathable = some v → (loadSettings (some d)).subPathable = v)) := by
  refine ⟨?_, rfl, ⟨?_, ?_, ?_, ?_, ?_⟩, ⟨?_, ?_, ?_, ?_, ?_⟩⟩
  · cases s; rfl
  · intro h; simp [loadSettings, h]
  · intro h; simp [loadSettings, h]
  · intro h; simp [loadSettings, h]
  · intro h; simp [loadSettings, h]
  · intro h; simp [loadSettings, h]
  · intro v h; simp [loadSettings, h]
  · intro v h; simp [loadSettings, h]
  · intro v h; simp [loadSettings, h]
  · intro v h; simp [loadSettings, h]
  · intro v h; simp [loadSettings, h]

theorem settings_round_trip_witness :
    loadSettings (some (saveSettings DEFAULT_SETTINGS)) = DEFAULT_SETTINGS ∧
    (loadSettings (some ⟨some "o/r", none, some "/img", some "tok", some false⟩)).branch
      = DEFAULT_SETTINGS.branch ∧
    (loadSettings (some ⟨some "o/r", none, some "/img", some "tok", some false⟩)).repo
      = "o/r" :=
  ⟨(settings_round_trip DEFAULT_SETTINGS
      ⟨some "o/r", none, some "/img", some "tok", some false⟩).1,
   (settings_round_trip DEFAULT_SETTINGS
      ⟨some "o/r", none, some "/img", some "tok", some false⟩).2.2.1.2.1 rfl,
   ((settings_round_trip DEFAULT_SETTINGS
      ⟨some "o/r", none, some "/img", some "tok", some false⟩).2.2.2.1 "o/r") rfl⟩

/-- C10: the branch setting is dead for the upload pipeline: two
configurations agreeing on every field but `branch` produce identical
batch runs — the same requests (URL and body), the same notices and the
same results — and the same event dispatch. -/
theorem branch_noninterference (s₁ s₂ : MyPluginSettings)
    (hrepo : s₁.repo = s₂.repo) (hpath : s₁.path = s₂.path)
    (htoken : s₁.token = s₂.token) (hsub : s₁.subPathable = s₂.subPathable)
    (fileList : List FileRef) (filePath : String) (outcomes : Nat → FileOutcome) :
    uploadToGitee fileList s₁ filePath outcomes
      = uploadToGitee fileList s₂ filePath outcomes ∧
    (∀ files, uploadFiles files s₁ = uploadFiles files s₂) := by
  obtain ⟨r₁, b₁, p₁, t₁, sp₁⟩ := s₁
  obtain ⟨r₂, b₂, p₂, t₂, sp₂⟩ := s₂
  simp only at hrepo hpath htoken hsub
  subst hrepo hpath htoken hsub
  constructor
  · have hruns : perFileRuns fileList ⟨r₁, b₁, p₁, t₁, sp₁⟩ filePath outcomes
        = perFileRuns fileList ⟨r₁, b₂, p₁, t₁, sp₁⟩ filePath outcomes :=
      List.map_congr_left (fun a _ =>
        processFile_branch_irrelevant r₁ b₁ b₂ p₁ t₁ sp₁ sp₁ filePath a.2 (outcomes a.1))
    simp only [uploadToGitee, hruns]
  · intro files
    cases files with
    | none => rfl
    | some fs => rfl

/-- C3 (counterexample): the claim says that on the non-prompting path the
sub-path segment is omitted from the request path. The code's URL template
writes both separators unconditionally, so the default empty sub-path
produces an empty segment (double slash): with base path `img` and file
`a.png` the request goes to `.../contents/img//a.png`, not to
`.../contents/img/a.png`. -/
theorem subpath_not_omitted_cex :
    (directUploadCall [⟨"a.png", 5, "image/png"⟩] ⟨"o/r", "master", "img", "tok", false⟩
        (fun _ => FileOutcome.postSuccess "data:image/png;base64,AA" "u")).requests.map
          UploadRequest.url
      = ["https://gitee.com/api/v5/repos/o/r/contents/img//a.png"] ∧
    ("https://gitee.com/api/v5/repos/o/r/contents/img//a.png" : String)
      ≠ "https://gitee.com/api/v5/repos/o/r/contents/img/a.png" :=
  ⟨rfl, by decide⟩

/-- C3 (amended): every accepted candidate whose read succeeds gets exactly
one create-file request; every request of the batch is a `buildRequest` for
an accepted file, at the URL `.../repos/repo/contents/basePath/filePath/
fileName` with both separators always present; and the non-prompting call
site passes the empty sub-path (so the segment is empty, not omitted). -/
theorem one_request_per_encoded_candidate (fileList : List FileRef)
    (settings : MyPluginSettings) (filePath : String) (outcomes : Nat → FileOutcome) :
    (uploadToGitee fileList settings filePath outcomes).requests.length
      = ((acceptedFiles fileList).enum.filter
          (fun p => !(outcomes p.1 == FileOutcome.readError))).length ∧
    (∀ req ∈ (uploadToGitee fileList settings filePath outcomes).requests,
      ∃ file rr, file ∈ acceptedFiles fileList ∧
        req = buildRequest settings filePath file rr ∧
        req.url = "https://gitee.com/api/v5/repos/" ++ settings.repo ++ "/contents/"
          ++ settings.path ++ "/" ++ filePath ++ "/" ++ file.name) ∧
    directUploadCall fileList settings outcomes
      = uploadToGitee fileList settings "" outcomes := by
  refine ⟨?_, ?_, rfl⟩
  · simp only [uploadToGitee, perFileRuns, List.map_map]
    exact requests_length_aux settings filePath outcomes ((acceptedFiles fileList).enum)
  · intro req hreq
    simp only [uploadToGitee, perFileRuns, List.map_map] at hreq
    rw [List.mem_flatten] at hreq
    rcases hreq with ⟨l, hl, hreql⟩
    rcases List.mem_map.mp hl with ⟨p, hp, hpl⟩
    have hfile : p.2 ∈ acceptedFiles fileList := by
      have := List.mem_enum_iff_getElem?.mp hp
      exact List.getElem?_mem this
    rw [← hpl] at hreql
    simp only [Function.comp_apply, processFile_requests_eq] at hreql
    cases ho : outcomes p.1 with
    | readError => rw [ho] at hreql; cases hreql
    | postSuccess rr u =>
        rw [ho] at hreql
        rcases List.mem_cons.mp hreql with h | h
        · exact ⟨p.2, rr, hfile, h, by rw [h]; rfl⟩
        · cases h
    | postFailure rr err =>
        rw [ho] at hreql
        rcases List.mem_cons.mp hreql with h | h
        · exact ⟨p.2, rr, hfile, h, by rw [h]; rfl⟩
        · cases h

theorem one_request_per_encoded_candidate_witness :
    (uploadToGitee [⟨"a.png", 5, "image/png"⟩] ⟨"o/r", "master", "img", "tok", false⟩ "sub"
        (fun _ => FileOutcome.postSuccess "data:image/png;base64,AA" "u")).requests.length
      = ((acceptedFiles [⟨"a.png", 5, "image/png"⟩]).enum.filter
          (fun p => !((fun _ => FileOutcome.postSuccess "data:image/png;base64,AA" "u") p.1
              == FileOutcome.readError))).length ∧
    (∃ file rr, file ∈ acceptedFiles [⟨"a.png", 5, "image/png"⟩] ∧
      buildRequest ⟨"o/r", "master", "img", "tok", false⟩ "sub" ⟨"a.png", 5, "image/png"⟩
          "data:image/png;base64,AA"
        = buildRequest ⟨"o/r", "master", "img", "tok", false⟩ "sub" file rr ∧
      (buildRequest ⟨"o/r", "master", "img", "tok", false⟩ "sub" ⟨"a.png", 5, "image/png"⟩
          "data:image/png;base64,AA").url
        = "https://gitee.com/api/v5/repos/" ++ "o/r" ++ "/contents/"
            ++ "img" ++ "/" ++ "sub" ++ "/" ++ file.name) := by
  refine ⟨(one_request_per_encoded_candidate [⟨"a.png", 5, "image/png"⟩]
      ⟨"o/r", "master", "img", "tok", false⟩ "sub"
      (fun _ => FileOutcome.postSuccess "data:image/png;base64,AA" "u")).1, ?_⟩
  exact (one_request_per_encoded_candidate [⟨"a.png", 5, "image/png"⟩]
      ⟨"o/r", "master", "img", "tok", false⟩ "sub"
      (fun _ => FileOutcome.postSuccess "data:image/png;base64,AA" "u")).2.1
      (buildRequest ⟨"o/r", "master", "img", "tok", false⟩ "sub" ⟨"a.png", 5, "image/png"⟩
        "data:image/png;base64,AA")
      (by decide)

/-- C6: a batch shows zero oversized-file notices when no file exceeds the
limit and exactly one when any does, and that single notice's message
contains the name of every rejected file. -/
theorem oversized_notice_once (fileList : List FileRef) :
    ((tooLargeFiles fileList).length = 0 → (oversizedNotices fileList).length = 0) ∧
    ((tooLargeFiles fileList).length ≠ 0 → (oversizedNotices fileList).length = 1) ∧
    (∀ file ∈ tooLargeFiles fileList, ∃ msg a b,
      oversizedNotices fileList = [⟨msg, 5000⟩] ∧ msg = a ++ file.name ++ b) := by
  refine ⟨?_, ?_, ?_⟩
  · intro h; simp [oversizedNotices, h]
  · intro h; simp [oversizedNotices, h]
  · intro file hf
    have hlen : (tooLargeFiles fileList).length ≠ 0 := by
      intro h0
      rw [List.length_eq_zero] at h0
      rw [h0] at hf
      cases hf
    have hmem : file.name ∈ (tooLargeFiles fileList).map FileRef.name :=
      List.mem_map_of_mem FileRef.name hf
    rcases joinSep_infix "、" ((tooLargeFiles fileList).map FileRef.name) file.name hmem
      with ⟨a, b, hab⟩
    refine ⟨"文件大小不能超过10MB，" ++ joinSep "、" ((tooLargeFiles fileList).map FileRef.name)
        ++ "将会被丢弃", "文件大小不能超过10MB，" ++ a, b ++ "将会被丢弃", ?_, ?_⟩
    · simp [oversizedNotices, hlen]
    · rw [hab]
      simp [String.append_assoc]

theorem oversized_notice_once_witness :
    (oversizedNotices [⟨"a.png", 5, "image/png"⟩]).length = 0 ∧
    (oversizedNotices [⟨"b.pdf", 15728640, "application/pdf"⟩]).length = 1 ∧
    (∃ msg a b, oversizedNotices [⟨"b.pdf", 15728640, "application/pdf"⟩] = [⟨msg, 5000⟩] ∧
      msg = a ++ FileRef.name ⟨"b.pdf", 15728640, "application/pdf"⟩ ++ b) :=
  ⟨(oversized_notice_once [⟨"a.png", 5, "image/png"⟩]).1 (by decide),
   (oversized_notice_once [⟨"b.pdf", 15728640, "application/pdf"⟩]).2.1 (by decide),
   (oversized_notice_once [⟨"b.pdf", 15728640, "application/pdf"⟩]).2.2
      ⟨"b.pdf", 15728640, "application/pdf"⟩ (by decide)⟩

/-- C7: when every per-file slot of a batch settles, replaying the
completion events in ANY order (any permutation of the indexed values)
fills the aggregate array back to the positional slot values — the result
is indexed by position, not by completion order — and the text inserted
into the editor is the positional results with empty entries removed,
joined with newlines. -/
theorem join_preserves_original_order (fileList : List FileRef)
    (settings : MyPluginSettings) (filePath : String) (outcomes : Nat → FileOutcome)
    (events : List (Nat × String)) (vals : List String)
    (hsettle : (uploadToGitee fileList settings filePath outcomes).slots = vals.map some)
    (hperm : events.Perm vals.enum) :
    settleInOrder vals.length events
      = (uploadToGitee fileList settings filePath outcomes).slots ∧
    insertedText vals = joinSep "\n" (vals.filter (fun x => x != "")) := by
  refine ⟨?_, rfl⟩
  rw [hsettle]
  exact settleInOrder_perm vals events hperm

theorem join_preserves_original_order_witness :
    settleInOrder 2 [(1, "v"), (0, "![a](u)")]
      = (uploadToGitee [⟨"a", 1, "image/png"⟩, ⟨"b", 2, "text/plain"⟩]
          DEFAULT_SETTINGS ""
          (fun i => if i == 0 then FileOutcome.postSuccess "r" "u"
                    else FileOutcome.postSuccess "r" "v")).slots ∧
    insertedText ["![a](u)", "v"]
      = joinSep "\n" ((["![a](u)", "v"] : List String).filter (fun x => x != "")) :=
  join_preserves_original_order [⟨"a", 1, "image/png"⟩, ⟨"b", 2, "text/plain"⟩]
    DEFAULT_SETTINGS ""
    (fun i => if i == 0 then FileOutcome.postSuccess "r" "u"
              else FileOutcome.postSuccess "r" "v")
    [(1, "v"), (0, "![a](u)")] ["![a](u)", "v"] (by decide) (by decide)

theorem branch_noninterference_witness :
    uploadToGitee [⟨"a.png", 5, "image/png"⟩] ⟨"o/r", "master", "/img", "tok", false⟩ ""
        (fun _ => FileOutcome.postSuccess "data:image/png;base64,AA" "https://x/a.png")
      = uploadToGitee [⟨"a.png", 5, "image/png"⟩] ⟨"o/r", "dev", "/img", "tok", false⟩ ""
        (fun _ => FileOutcome.postSuccess "data:image/png;base64,AA" "https://x/a.png") :=
  (branch_noninterference ⟨"o/r", "master", "/img", "tok", false⟩
      ⟨"o/r", "dev", "/img", "tok", false⟩ rfl rfl rfl rfl
      [⟨"a.png", 5, "image/png"⟩] ""
      (fun _ => FileOutcome.postSuccess "data:image/png;base64,AA" "https://x/a.png")).1

end ImgPlugin
